import Mathlib

/-!
Verification of the ndg display/input driver layer (src/ui/c).

The C sources are shallowly embedded: each driver-init function becomes a
pure Lean function from an environment (the outcomes of the external LVGL
and OS calls it makes) to its return value together with a trace of the
observable calls it performed (registrations, warnings, group operations).
The non-blocking event pump over the raw evdev descriptor is embedded as a
function over the list of values that successive read(2) calls return.
-/

namespace Ndg

/-! ## Tick source (ui.h / lv_custom_tick.h)

The function nm_get_curr_tick is declared in ui.h and lv_custom_tick.h but
defined outside the C sources (in the Zig part of the repository, which is
not present here). -/

/-- Numeric value of 2^32, the modulus of a uint32_t counter. -/
def U32 : Nat := 4294967296

/-- Modelled from the spec: `nm_get_curr_tick` returns elapsed time since
program start in milliseconds as a uint32_t, rolling over (wrapping to zero)
when 32-bit overflow occurs.  The definition is missing from the C sources
(only declared in ui.h and lv_custom_tick.h); modelled here as the true
elapsed milliseconds reduced modulo 2^32. -/
def nm_get_curr_tick (elapsedMs : Nat) : Nat := elapsedMs % U32

/-- Wraparound-safe elapsed time between two uint32_t tick readings:
the spec's `(later - earlier) mod 2^32`, i.e. uint32_t subtraction. -/
def tick_elapsed (later earlier : Nat) : Nat :=
  (U32 + later % U32 - earlier % U32) % U32

/-! ## Non-blocking event pump (drv_fbev.c)

A raw evdev descriptor opened with O_NONBLOCK.  The device is modelled by
the list of values that successive read(2) calls on it return: a positive
value is a number of bytes read, zero or a negative value ends the loop
(end of data, EAGAIN, or an error).  Once the list is exhausted, a further
read returns -1 immediately (EAGAIN: the call would block, but the
descriptor is non-blocking), so the loop always terminates after consuming
at most the buffered data. -/

/-- sizeof(struct input_event), the fixed record size passed to read(2)
by nm_consume_input_events (24 bytes on a 64-bit Linux target). -/
def input_event_size : Nat := 24

/-- Result of one nm_consume_input_events call: the returned Bool, the
final value of the C `count` variable, the number of read(2) calls issued,
and the read results still pending on the device afterwards. -/
structure ConsumeResult where
  ret : Bool
  count : Nat
  readCalls : Nat
  rest : List Int
  deriving Repr, DecidableEq

/-- The C loop `while (read(fd, &in, sizeof(struct input_event)) > 0)
count++;` over the device's pending read results.  Returns the final
count, the number of read calls made, and the unconsumed results. -/
def consumeLoop : List Int → Nat × Nat × List Int
  | [] => (0, 1, [])
  | r :: rs =>
    if 0 < r then
      let t := consumeLoop rs
      (t.1 + 1, t.2.1 + 1, t.2.2)
    else
      (0, 1, r :: rs)

/-- Embedding of `bool nm_consume_input_events(int fd)` from drv_fbev.c:
if fd == -1 return false (no read is attempted); otherwise run the read
loop and return count > 0. -/
def nm_consume_input_events (fd : Int) (dev : List Int) : ConsumeResult :=
  if fd = -1 then
    ⟨false, 0, 0, dev⟩
  else
    let t := consumeLoop dev
    ⟨decide (0 < t.1), t.1, t.2.1, t.2.2⟩

/-- Embedding of `void nm_close_evdev(int fd)` from drv_fbev.c: returns
the list of descriptors on which close(2) was invoked (empty when fd is
the unopened sentinel -1). -/
def nm_close_evdev (fd : Int) : List Int :=
  if fd ≠ -1 then [fd] else []

/-! ## Backend driver initialization (drv_fbev.c, drv_sdl2.c, drv_x11.c)

Each init function is embedded as a pure function from an environment (the
outcomes of the external LVGL / OS calls it performs, in program order) to
its C return value paired with the trace of observable calls it made. -/

/-- LVGL input device class used at registration (LV_INDEV_TYPE_*). -/
inductive IndevType
  | pointer
  | keypad
  deriving Repr, DecidableEq

/-- One observable call made by a driver init function, in program order:
a warning log, a display registration (with the resolution passed in
hor_res/ver_res, the per-buffer pixel count, whether a second buffer was
supplied, and whether registration succeeded), a focus-group creation,
marking the group as default, an input-device registration, attaching a
cursor visual to a device, and associating a device with the group. -/
inductive REv
  | warn
  | registerDisp (horRes verRes bufPixels : Nat) (doubleBuf : Bool) (ok : Bool)
  | groupCreate (ok : Bool)
  | groupSetDefault
  | registerIndev (t : IndevType) (ok : Bool)
  | setCursor (t : IndevType)
  | setGroup (t : IndevType)
  deriving Repr, DecidableEq

/-- Outcomes of the external calls made by nm_disp_init in drv_fbev.c:
the sizes reported by fbdev_get_sizes and whether lv_disp_drv_register
returns a non-NULL display. -/
structure FbevDispEnv where
  fbHor : Nat
  fbVer : Nat
  dispRegOk : Bool
  deriving Repr, DecidableEq

/-- Embedding of `lv_disp_t *nm_disp_init(void)` from drv_fbev.c, with the
compile-time constants NM_DISP_HOR / NM_DISP_VER as parameters.  A single
draw buffer of NM_DISP_HOR * NM_DISP_VER / 10 pixels (second buffer NULL)
is configured; a size mismatch against fbdev_get_sizes only logs a
warning; the function returns whatever lv_disp_drv_register returns
(true = non-NULL). -/
def fbev_nm_disp_init (hor ver : Nat) (env : FbevDispEnv) : Bool × List REv :=
  let warns : List REv := if env.fbHor ≠ hor ∨ env.fbVer ≠ ver then [.warn] else []
  (env.dispRegOk,
   warns ++ [.registerDisp hor ver (hor * ver / 10) false env.dispRegOk])

/-- Outcomes of the external calls made by nm_indev_init in drv_fbev.c:
whether lv_group_create and lv_indev_drv_register (touchpad) succeed. -/
structure FbevIndevEnv where
  groupCreateOk : Bool
  touchpadRegOk : Bool
  deriving Repr, DecidableEq

/-- Embedding of `int nm_indev_init(void)` from drv_fbev.c: creates the
keypad default group (returning -1 if that fails), marks it default, then
registers one evdev pointer device, returning -1 if registration fails and
0 otherwise. -/
def fbev_nm_indev_init (env : FbevIndevEnv) : Int × List REv :=
  if env.groupCreateOk = false then
    (-1, [.groupCreate false])
  else if env.touchpadRegOk = false then
    (-1, [.groupCreate true, .groupSetDefault, .registerIndev .pointer false])
  else
    (0, [.groupCreate true, .groupSetDefault, .registerIndev .pointer true])

/-- Outcomes of the external calls made by nm_disp_init in drv_x11.c:
whether lv_disp_drv_register returns a non-NULL display. -/
structure X11DispEnv where
  dispRegOk : Bool
  deriving Repr, DecidableEq

/-- Embedding of `lv_disp_t *nm_disp_init(void)` from drv_x11.c: creates
the window at the configured resolution (no mode query), configures two
draw buffers of NM_DISP_HOR * 100 pixels each, and returns whatever
lv_disp_drv_register returns. -/
def x11_nm_disp_init (hor ver : Nat) (env : X11DispEnv) : Bool × List REv :=
  (env.dispRegOk, [.registerDisp hor ver (hor * 100) true env.dispRegOk])

/-- Outcomes of the external calls made by nm_indev_init in drv_x11.c,
in program order: mouse registration, keyboard registration, group
creation. -/
structure X11IndevEnv where
  mouseRegOk : Bool
  kbRegOk : Bool
  groupCreateOk : Bool
  deriving Repr, DecidableEq

/-- Embedding of `int nm_indev_init(void)` from drv_x11.c: registers the
pointer (warning and -1 on failure), attaches the cursor image to it,
registers the keypad (warning and -1 on failure), then creates the default
group (warning and -1 on failure), marks it default and associates the
keypad with it, returning 0. -/
def x11_nm_indev_init (env : X11IndevEnv) : Int × List REv :=
  if env.mouseRegOk = false then
    (-1, [.registerIndev .pointer false, .warn])
  else if env.kbRegOk = false then
    (-1, [.registerIndev .pointer true, .setCursor .pointer,
          .registerIndev .keypad false, .warn])
  else if env.groupCreateOk = false then
    (-1, [.registerIndev .pointer true, .setCursor .pointer,
          .registerIndev .keypad true, .groupCreate false, .warn])
  else
    (0, [.registerIndev .pointer true, .setCursor .pointer,
         .registerIndev .keypad true, .groupCreate true,
         .groupSetDefault, .setGroup .keypad])

/-- Outcomes of the external calls made by drv_init in drv_sdl2.c, in
program order: SDL_GetDesktopDisplayMode error flag and reported mode,
then display registration, mouse registration, group creation and
keyboard registration. -/
structure Sdl2Env where
  dmErr : Bool
  dmW : Nat
  dmH : Nat
  dmBpp : Nat
  dispRegOk : Bool
  mouseRegOk : Bool
  groupCreateOk : Bool
  kbRegOk : Bool
  deriving Repr, DecidableEq

/-- Embedding of `lv_disp_t *drv_init(void)` from drv_sdl2.c, with the
compile-time constants NM_DISP_HOR / NM_DISP_VER / LV_COLOR_DEPTH as
parameters.  A desktop-mode query failure or mismatch only logs a warning;
two draw buffers of NM_DISP_HOR * 100 pixels each are configured; a NULL
display registration returns NULL; failures of the mouse registration,
group creation or keyboard registration only log warnings, and the
keyboard is associated with the group only when both exist.  The Bool
result is whether a non-NULL display was returned. -/
def sdl2_drv_init (hor ver depth : Nat) (env : Sdl2Env) : Bool × List REv :=
  let warns : List REv :=
    if env.dmErr then [.warn]
    else if env.dmW ≠ hor ∨ env.dmH ≠ ver ∨ env.dmBpp ≠ depth then [.warn]
    else []
  let t0 := warns ++ [.registerDisp hor ver (hor * 100) true env.dispRegOk]
  if env.dispRegOk = false then
    (false, t0)
  else
    let t1 := t0 ++ (if env.mouseRegOk then [.registerIndev .pointer true]
                     else [.registerIndev .pointer false, .warn])
    let t2 := t1 ++ (if env.groupCreateOk then [.groupCreate true, .groupSetDefault]
                     else [.groupCreate false, .warn])
    let t3 := t2 ++ (if env.kbRegOk = false then [.registerIndev .keypad false, .warn]
                     else if env.groupCreateOk then [.registerIndev .keypad true, .setGroup .keypad]
                     else [.registerIndev .keypad true])
    (true, t3)

/-- Input-device classes successfully registered in a trace, in order. -/
def registeredDevs (tr : List REv) : List IndevType :=
  tr.filterMap fun e =>
    match e with
    | .registerIndev t true => some t
    | _ => none

/-- True when every registration and group creation in the trace
succeeded (no partially-registered state). -/
def noFailedReg (tr : List REv) : Bool :=
  tr.all fun e =>
    match e with
    | .registerDisp _ _ _ _ ok => ok
    | .registerIndev _ ok => ok
    | .groupCreate ok => ok
    | _ => true

/-- True for the groupSetDefault event. -/
def isSetDefault : REv → Bool
  | .groupSetDefault => true
  | _ => false

/-- True for a keypad-device registration event. -/
def isKeypadReg : REv → Bool
  | .registerIndev .keypad _ => true
  | _ => false

/-- True when in the trace a default focus group is marked before any
keypad device registration is attempted (vacuously true when no keypad is
registered at all). -/
def defaultGroupBeforeKeypad : List REv → Bool
  | [] => true
  | e :: rest =>
    if isSetDefault e then true
    else if isKeypadReg e then false
    else defaultGroupBeforeKeypad rest

/-! ## Helper lemmas -/

/-- The read loop consumes exactly the n buffered fixed-size records
(each read returning the positive record size), issuing n+1 read calls. -/
lemma consumeLoop_replicate (n : Nat) (r : Int) (hr : 0 < r) :
    consumeLoop (List.replicate n r) = (n, n + 1, []) := by
  induction n with
  | zero => rfl
  | succ k ih =>
    simp only [List.replicate_succ, consumeLoop, if_pos hr, ih]

/-- A conditional leading warning does not affect where the default group
is marked relative to keypad registration. -/
lemma defaultGroupBeforeKeypad_warns (c : Prop) [Decidable c] (tr : List REv) :
    defaultGroupBeforeKeypad ((if c then [REv.warn] else []) ++ tr) =
      defaultGroupBeforeKeypad tr := by
  split <;> simp [defaultGroupBeforeKeypad, isSetDefault, isKeypadReg]

/-- A conditional leading warning registers no input device. -/
lemma registeredDevs_warns (c : Prop) [Decidable c] (tr : List REv) :
    registeredDevs ((if c then [REv.warn] else []) ++ tr) = registeredDevs tr := by
  split <;> simp [registeredDevs]

/-! ## Claims -/

/-- claim C3: nm_get_curr_tick is a 32-bit millisecond counter wrapping to
zero on overflow, and the wraparound-safe difference (later - earlier) mod
2^32 recovers the true elapsed time across the wrap; for readings
0xFFFFFFF0 then 0x00000010 it is exactly 32. -/
theorem tick_wraparound (t d : Nat) (hd : d < U32) :
    nm_get_curr_tick t < U32 ∧
    nm_get_curr_tick U32 = 0 ∧
    tick_elapsed (nm_get_curr_tick (t + d)) (nm_get_curr_tick t) = d ∧
    tick_elapsed 0x00000010 0xFFFFFFF0 = 32 := by
  refine ⟨?_, by decide, ?_, by decide⟩
  · exact Nat.mod_lt _ (by decide)
  · simp only [nm_get_curr_tick, tick_elapsed, U32] at *
    omega

/-- claim C3 witness: the theorem applied at readings 0xFFFFFFF0 and
0xFFFFFFF0 + 32 (which wraps to 0x00000010). -/
theorem tick_wraparound_witness :
    (32 : Nat) < U32 ∧
    tick_elapsed (nm_get_curr_tick (0xFFFFFFF0 + 32)) (nm_get_curr_tick 0xFFFFFFF0) = 32 :=
  ⟨by decide, (tick_wraparound 0xFFFFFFF0 32 (by decide)).2.2.1⟩

/-- claim C4: on an opened descriptor, nm_consume_input_events reads
fixed-size records until a read would block, never blocking (for n
buffered records it issues exactly n+1 immediate reads and stops), returns
true iff at least one record was read, and once the device has no buffered
records it returns false. -/
theorem consume_drains_buffered (fd : Int) (n : Nat) (r : Int)
    (hfd : fd ≠ -1) (hr : 0 < r) :
    (nm_consume_input_events fd (List.replicate n r)).ret = decide (0 < n) ∧
    (nm_consume_input_events fd (List.replicate n r)).readCalls = n + 1 ∧
    (nm_consume_input_events fd (List.replicate n r)).rest = [] ∧
    (nm_consume_input_events fd
      (nm_consume_input_events fd (List.replicate n r)).rest).ret = false ∧
    ∀ dev : List Int,
      ((nm_consume_input_events fd dev).ret = true ↔
        0 < (nm_consume_input_events fd dev).count) := by
  have h := consumeLoop_replicate n r hr
  refine ⟨?_, ?_, ?_, ?_, ?_⟩
  · simp [nm_consume_input_events, if_neg hfd, h]
  · simp [nm_consume_input_events, if_neg hfd, h]
  · simp [nm_consume_input_events, if_neg hfd, h]
  · simp [nm_consume_input_events, if_neg hfd, h, consumeLoop]
  · intro dev
    simp [nm_consume_input_events, if_neg hfd]

/-- claim C4 witness: the theorem applied to descriptor 3 with two
buffered records of size 24. -/
theorem consume_drains_buffered_witness :
    (nm_consume_input_events 3 (List.replicate 2 24)).ret = decide (0 < 2) ∧
    (nm_consume_input_events 3 (List.replicate 2 24)).readCalls = 2 + 1 :=
  ⟨(consume_drains_buffered 3 2 24 (by decide) (by decide)).1,
   (consume_drains_buffered 3 2 24 (by decide) (by decide)).2.1⟩

/-- claim C5: for the unopened descriptor value -1 every operation is a
safe no-op: nm_close_evdev closes nothing and nm_consume_input_events
returns false without issuing any read and without touching the device. -/
theorem unopened_descriptor_noop :
    nm_close_evdev (-1) = [] ∧
    ∀ dev : List Int, nm_consume_input_events (-1) dev = ⟨false, 0, 0, dev⟩ := by
  refine ⟨rfl, fun dev => ?_⟩
  simp [nm_consume_input_events]

/-- claim C10: a read(2) returning any positive byte count is counted as
activity, with no check that a complete input-event record (of size
input_event_size) was read: a single short read still makes the call
return true. -/
theorem short_read_counts (fd : Int) (r : Int)
    (hfd : fd ≠ -1) (hr : 0 < r) (hshort : r < input_event_size) :
    (nm_consume_input_events fd [r]).ret = true ∧
    (nm_consume_input_events fd [r]).count = 1 := by
  simp [nm_consume_input_events, if_neg hfd, consumeLoop, if_pos hr]

/-- claim C10 witness: the theorem applied to descriptor 3 and a 5-byte
short read (5 < 24). -/
theorem short_read_counts_witness :
    (nm_consume_input_events 3 [5]).ret = true ∧
    (nm_consume_input_events 3 [5]).count = 1 :=
  short_read_counts 3 5 (by decide) (by decide) (by decide)

/-- claim C1 counterexample: with only the pointer device registration
failing, the framebuffer backend does not continue with a warning — its
input init returns -1 — while the SDL2 backend does not fail outright —
its init still returns the display. -/
theorem c1_failure_policy_counterexample :
    (fbev_nm_indev_init ⟨true, false⟩).fst = -1 ∧
    (sdl2_drv_init 800 480 16 ⟨false, 800, 480, 16, true, false, true, true⟩).fst = true := by
  decide

/-- claim C1 (amended): if a pointer or keypad device fails to register,
the framebuffer and X11 backends fail outright (input init returns -1),
while the SDL2 backend continues without the failed device, only logs a
warning, and still returns the display. -/
theorem c1_failure_policy (hor ver depth : Nat)
    (envF : FbevIndevEnv) (envX : X11IndevEnv) (envS : Sdl2Env)
    (hF : envF.touchpadRegOk = false)
    (hX : envX.mouseRegOk = false ∨ envX.kbRegOk = false)
    (hS1 : envS.dispRegOk = true)
    (hS2 : envS.mouseRegOk = false ∨ envS.kbRegOk = false) :
    (fbev_nm_indev_init envF).fst = -1 ∧
    (x11_nm_indev_init envX).fst = -1 ∧
    (sdl2_drv_init hor ver depth envS).fst = true ∧
    REv.warn ∈ (sdl2_drv_init hor ver depth envS).snd := by
  obtain ⟨fg, ft⟩ := envF
  obtain ⟨xm, xk, xg⟩ := envX
  obtain ⟨sde, sw, sh, sb, sd, sm, sg, sk⟩ := envS
  simp only at hF hS1
  subst hF hS1
  refine ⟨?_, ?_, ?_, ?_⟩
  · cases fg <;> simp [fbev_nm_indev_init]
  · cases xm <;> cases xk <;> cases xg <;> simp_all [x11_nm_indev_init]
  · simp [sdl2_drv_init]
  · cases sde <;> cases sm <;> cases sg <;> cases sk <;>
      simp_all [sdl2_drv_init, List.mem_append]

/-- claim C1 witness: the amended theorem at concrete environments where
exactly the pointer registration fails in each backend. -/
theorem c1_failure_policy_witness :
    ((FbevIndevEnv.mk true false).touchpadRegOk = false ∧
     ((X11IndevEnv.mk false true true).mouseRegOk = false ∨
      (X11IndevEnv.mk false true true).kbRegOk = false) ∧
     (Sdl2Env.mk false 800 480 16 true false true true).dispRegOk = true ∧
     ((Sdl2Env.mk false 800 480 16 true false true true).mouseRegOk = false ∨
      (Sdl2Env.mk false 800 480 16 true false true true).kbRegOk = false)) ∧
    ((fbev_nm_indev_init ⟨true, false⟩).fst = -1 ∧
     (x11_nm_indev_init ⟨false, true, true⟩).fst = -1 ∧
     (sdl2_drv_init 800 480 16 ⟨false, 800, 480, 16, true, false, true, true⟩).fst = true ∧
     REv.warn ∈ (sdl2_drv_init 800 480 16 ⟨false, 800, 480, 16, true, false, true, true⟩).snd) :=
  ⟨⟨by decide, Or.inl (by decide), by decide, Or.inl (by decide)⟩,
   c1_failure_policy 800 480 16 ⟨true, false⟩ ⟨false, true, true⟩
     ⟨false, 800, 480, 16, true, false, true, true⟩
     (by decide) (Or.inl (by decide)) (by decide) (Or.inl (by decide))⟩

/-- claim C2 counterexample: in the SDL2 backend, with the mouse
registration failing and everything else succeeding, init returns the
display (success) although the trace holds a failed registration — a
partially-registered state is returned as success. -/
theorem c2_no_partial_success_counterexample :
    (sdl2_drv_init 800 480 16 ⟨false, 800, 480, 16, true, false, true, true⟩).fst = true ∧
    noFailedReg (sdl2_drv_init 800 480 16 ⟨false, 800, 480, 16, true, false, true, true⟩).snd
      = false := by
  decide

/-- claim C2 (amended): for the framebuffer and X11 backends, display init
reports registration failure to the caller and input init returns 0
exactly when every registration succeeded, otherwise -1 (the first
failure); the SDL2 combined init returns success exactly when display
registration succeeded, even if input registrations failed (they are only
logged). -/
theorem c2_first_failure_reported (hor ver depth : Nat)
    (eFd : FbevDispEnv) (eXd : X11DispEnv)
    (eFi : FbevIndevEnv) (eXi : X11IndevEnv) (eS : Sdl2Env) :
    (fbev_nm_disp_init hor ver eFd).fst = eFd.dispRegOk ∧
    (x11_nm_disp_init hor ver eXd).fst = eXd.dispRegOk ∧
    ((fbev_nm_indev_init eFi).fst = 0 ↔
      noFailedReg (fbev_nm_indev_init eFi).snd = true) ∧
    ((x11_nm_indev_init eXi).fst = 0 ↔
      noFailedReg (x11_nm_indev_init eXi).snd = true) ∧
    ((fbev_nm_indev_init eFi).fst = 0 ∨ (fbev_nm_indev_init eFi).fst = -1) ∧
    ((x11_nm_indev_init eXi).fst = 0 ∨ (x11_nm_indev_init eXi).fst = -1) ∧
    (sdl2_drv_init hor ver depth eS).fst = eS.dispRegOk := by
  obtain ⟨fg, ft⟩ := eFi
  obtain ⟨xm, xk, xg⟩ := eXi
  obtain ⟨sde, sw, sh, sb, sd, sm, sg, sk⟩ := eS
  refine ⟨?_, rfl, ?_, ?_, ?_, ?_, ?_⟩
  · simp [fbev_nm_disp_init]
  · cases fg <;> cases ft <;> simp [fbev_nm_indev_init, noFailedReg]
  · cases xm <;> cases xk <;> cases xg <;> simp [x11_nm_indev_init, noFailedReg]
  · cases fg <;> cases ft <;> simp [fbev_nm_indev_init]
  · cases xm <;> cases xk <;> cases xg <;> simp [x11_nm_indev_init]
  · cases sd <;> simp [sdl2_drv_init]

/-- claim C6: in the framebuffer and SDL2 backends a queried-mode mismatch
against the compile-time constants emits a warning, never causes failure
(success is decided solely by display registration), and the display is
registered at the compile-time resolution. -/
theorem c6_mismatch_only_warns (hor ver depth : Nat)
    (eF : FbevDispEnv) (eS : Sdl2Env)
    (hF : eF.fbHor ≠ hor ∨ eF.fbVer ≠ ver)
    (hSerr : eS.dmErr = false)
    (hS : eS.dmW ≠ hor ∨ eS.dmH ≠ ver) :
    REv.warn ∈ (fbev_nm_disp_init hor ver eF).snd ∧
    (fbev_nm_disp_init hor ver eF).fst = eF.dispRegOk ∧
    REv.registerDisp hor ver (hor * ver / 10) false eF.dispRegOk
      ∈ (fbev_nm_disp_init hor ver eF).snd ∧
    REv.warn ∈ (sdl2_drv_init hor ver depth eS).snd ∧
    (sdl2_drv_init hor ver depth eS).fst = eS.dispRegOk ∧
    REv.registerDisp hor ver (hor * 100) true eS.dispRegOk
      ∈ (sdl2_drv_init hor ver depth eS).snd := by
  obtain ⟨fh, fv, fd⟩ := eF
  obtain ⟨sde, sw, sh, sb, sd, sm, sg, sk⟩ := eS
  simp only at hF hSerr hS
  subst hSerr
  have hF2 : fh ≠ hor ∨ fv ≠ ver := hF
  have hS2 : sw ≠ hor ∨ sh ≠ ver ∨ sb ≠ depth := hS.imp id Or.inl
  refine ⟨?_, ?_, ?_, ?_, ?_, ?_⟩
  · simp [fbev_nm_disp_init, if_pos hF2]
  · simp [fbev_nm_disp_init]
  · simp [fbev_nm_disp_init]
  · cases sd <;> simp [sdl2_drv_init, if_pos hS2, List.mem_append]
  · cases sd <;> simp [sdl2_drv_init]
  · cases sd <;> simp [sdl2_drv_init, List.mem_append]

/-- claim C6 witness: the theorem applied where the framebuffer reports
640x480 and the SDL2 desktop mode 640x480 against constants 800x480. -/
theorem c6_mismatch_only_warns_witness :
    ((FbevDispEnv.mk 640 480 true).fbHor ≠ 800 ∨
     (FbevDispEnv.mk 640 480 true).fbVer ≠ 480) ∧
    (Sdl2Env.mk false 640 480 16 true true true true).dmErr = false ∧
    ((Sdl2Env.mk false 640 480 16 true true true true).dmW ≠ 800 ∨
     (Sdl2Env.mk false 640 480 16 true true true true).dmH ≠ 480) ∧
    REv.warn ∈ (fbev_nm_disp_init 800 480 ⟨640, 480, true⟩).snd ∧
    REv.warn ∈ (sdl2_drv_init 800 480 16 ⟨false, 640, 480, 16, true, true, true, true⟩).snd :=
  ⟨Or.inl (by decide), by decide, Or.inl (by decide),
   (c6_mismatch_only_warns 800 480 16 ⟨640, 480, true⟩
      ⟨false, 640, 480, 16, true, true, true, true⟩
      (Or.inl (by decide)) (by decide) (Or.inl (by decide))).1,
   (c6_mismatch_only_warns 800 480 16 ⟨640, 480, true⟩
      ⟨false, 640, 480, 16, true, true, true, true⟩
      (Or.inl (by decide)) (by decide) (Or.inl (by decide))).2.2.2.1⟩

/-- claim C7: the framebuffer backend registers its display with a single
buffer of NM_DISP_HOR * NM_DISP_VER / 10 pixels (no second buffer), while
the SDL2 and X11 backends register theirs with two buffers of
NM_DISP_HOR * 100 pixels each. -/
theorem c7_buffer_sizing (hor ver depth : Nat)
    (eF : FbevDispEnv) (eS : Sdl2Env) (eX : X11DispEnv) :
    REv.registerDisp hor ver (hor * ver / 10) false eF.dispRegOk
      ∈ (fbev_nm_disp_init hor ver eF).snd ∧
    REv.registerDisp hor ver (hor * 100) true eS.dispRegOk
      ∈ (sdl2_drv_init hor ver depth eS).snd ∧
    REv.registerDisp hor ver (hor * 100) true eX.dispRegOk
      ∈ (x11_nm_disp_init hor ver eX).snd := by
  obtain ⟨sde, sw, sh, sb, sd, sm, sg, sk⟩ := eS
  refine ⟨?_, ?_, ?_⟩
  · simp [fbev_nm_disp_init]
  · cases sd <;> simp [sdl2_drv_init, List.mem_append]
  · simp [x11_nm_disp_init]

/-- claim C8 counterexample: in the X11 backend with every call
succeeding, a keypad device is registered, yet no default focus group has
been marked before that registration (the group is created only
afterwards), contradicting the claimed ordering. -/
theorem c8_group_order_counterexample :
    REv.registerIndev IndevType.keypad true ∈ (x11_nm_indev_init ⟨true, true, true⟩).snd ∧
    defaultGroupBeforeKeypad (x11_nm_indev_init ⟨true, true, true⟩).snd = false := by
  decide

/-- claim C8 (amended): in the SDL2 backend, when group creation succeeds
the default group is marked before any keypad registration, and a
successfully registered keypad is associated with it; in the X11 backend
the keypad is registered before the default group is created, but whenever
input init returns success the group has been created, marked default and
associated with the keypad before returning. -/
theorem c8_group_before_keypad (hor ver depth : Nat)
    (eS : Sdl2Env) (eX : X11IndevEnv)
    (hSg : eS.groupCreateOk = true)
    (hSd : eS.dispRegOk = true)
    (hSk : eS.kbRegOk = true)
    (hX0 : (x11_nm_indev_init eX).fst = 0) :
    defaultGroupBeforeKeypad (sdl2_drv_init hor ver depth eS).snd = true ∧
    REv.setGroup IndevType.keypad ∈ (sdl2_drv_init hor ver depth eS).snd ∧
    REv.registerIndev IndevType.keypad true ∈ (x11_nm_indev_init eX).snd ∧
    REv.groupSetDefault ∈ (x11_nm_indev_init eX).snd ∧
    REv.setGroup IndevType.keypad ∈ (x11_nm_indev_init eX).snd ∧
    defaultGroupBeforeKeypad (x11_nm_indev_init eX).snd = false := by
  obtain ⟨sde, sw, sh, sb, sd, sm, sg, sk⟩ := eS
  obtain ⟨xm, xk, xg⟩ := eX
  simp only at hSg hSd hSk
  subst hSg hSd hSk
  have hX : xm = true ∧ xk = true ∧ xg = true := by
    cases xm <;> cases xk <;> cases xg <;> simp_all [x11_nm_indev_init]
  obtain ⟨h1, h2, h3⟩ := hX
  subst h1 h2 h3
  refine ⟨?_, ?_, by decide, by decide, by decide, by decide⟩
  · cases sde <;> cases sm <;>
      simp [sdl2_drv_init, List.append_assoc, defaultGroupBeforeKeypad_warns,
        defaultGroupBeforeKeypad, isSetDefault, isKeypadReg]
  · cases sde <;> cases sm <;> simp [sdl2_drv_init, List.mem_append]

/-- claim C8 witness: the amended theorem at all-succeeding environments
for both backends. -/
theorem c8_group_before_keypad_witness :
    ((Sdl2Env.mk false 800 480 16 true true true true).groupCreateOk = true ∧
     (Sdl2Env.mk false 800 480 16 true true true true).dispRegOk = true ∧
     (Sdl2Env.mk false 800 480 16 true true true true).kbRegOk = true ∧
     (x11_nm_indev_init ⟨true, true, true⟩).fst = 0) ∧
    (defaultGroupBeforeKeypad
       (sdl2_drv_init 800 480 16 ⟨false, 800, 480, 16, true, true, true, true⟩).snd = true ∧
     defaultGroupBeforeKeypad (x11_nm_indev_init ⟨true, true, true⟩).snd = false) :=
  ⟨⟨by decide, by decide, by decide, by decide⟩,
   ⟨(c8_group_before_keypad 800 480 16 ⟨false, 800, 480, 16, true, true, true, true⟩
       ⟨true, true, true⟩ (by decide) (by decide) (by decide) (by decide)).1,
    (c8_group_before_keypad 800 480 16 ⟨false, 800, 480, 16, true, true, true, true⟩
       ⟨true, true, true⟩ (by decide) (by decide) (by decide) (by decide)).2.2.2.2.2⟩⟩

/-- claim C9: with the external registrations succeeding, the framebuffer
input init registers exactly one pointer and no keypad (and attaches no
cursor), the SDL2 init registers exactly one pointer then one keypad, and
the X11 init registers exactly one pointer then one keypad and attaches a
cursor visual to the pointer device. -/
theorem c9_device_composition (hor ver depth : Nat)
    (eF : FbevIndevEnv) (eS : Sdl2Env) (eX : X11IndevEnv)
    (hF1 : eF.groupCreateOk = true) (hF2 : eF.touchpadRegOk = true)
    (hS1 : eS.dispRegOk = true) (hS2 : eS.mouseRegOk = true) (hS3 : eS.kbRegOk = true)
    (hX1 : eX.mouseRegOk = true) (hX2 : eX.kbRegOk = true) :
    registeredDevs (fbev_nm_indev_init eF).snd = [IndevType.pointer] ∧
    (∀ t, REv.setCursor t ∉ (fbev_nm_indev_init eF).snd) ∧
    registeredDevs (sdl2_drv_init hor ver depth eS).snd
      = [IndevType.pointer, IndevType.keypad] ∧
    registeredDevs (x11_nm_indev_init eX).snd
      = [IndevType.pointer, IndevType.keypad] ∧
    REv.setCursor IndevType.pointer ∈ (x11_nm_indev_init eX).snd := by
  obtain ⟨fg, ft⟩ := eF
  obtain ⟨sde, sw, sh, sb, sd, sm, sg, sk⟩ := eS
  obtain ⟨xm, xk, xg⟩ := eX
  simp only at hF1 hF2 hS1 hS2 hS3 hX1 hX2
  subst hF1 hF2 hS1 hS2 hS3 hX1 hX2
  refine ⟨by decide, ?_, ?_, ?_, ?_⟩
  · intro t
    cases t <;> decide
  · cases sde <;> cases sg <;>
      simp [sdl2_drv_init, List.append_assoc, registeredDevs_warns, registeredDevs]
  · cases xg <;> decide
  · cases xg <;> decide

/-- claim C9 witness: the theorem at all-succeeding environments for the
three backends. -/
theorem c9_device_composition_witness :
    ((FbevIndevEnv.mk true true).groupCreateOk = true ∧
     (FbevIndevEnv.mk true true).touchpadRegOk = true ∧
     (Sdl2Env.mk false 800 480 16 true true true true).dispRegOk = true ∧
     (Sdl2Env.mk false 800 480 16 true true true true).mouseRegOk = true ∧
     (Sdl2Env.mk false 800 480 16 true true true true).kbRegOk = true ∧
     (X11IndevEnv.mk true true true).mouseRegOk = true ∧
     (X11IndevEnv.mk true true true).kbRegOk = true) ∧
    (registeredDevs (fbev_nm_indev_init ⟨true, true⟩).snd = [IndevType.pointer] ∧
     registeredDevs (sdl2_drv_init 800 480 16 ⟨false, 800, 480, 16, true, true, true, true⟩).snd
       = [IndevType.pointer, IndevType.keypad] ∧
     registeredDevs (x11_nm_indev_init ⟨true, true, true⟩).snd
       = [IndevType.pointer, IndevType.keypad]) :=
  ⟨⟨by decide, by decide, by decide, by decide, by decide, by decide, by decide⟩,
   ⟨(c9_device_composition 800 480 16 ⟨true, true⟩
       ⟨false, 800, 480, 16, true, true, true, true⟩ ⟨true, true, true⟩
       (by decide) (by decide) (by decide) (by decide) (by decide) (by decide) (by decide)).1,
    (c9_device_composition 800 480 16 ⟨true, true⟩
       ⟨false, 800, 480, 16, true, true, true, true⟩ ⟨true, true, true⟩
       (by decide) (by decide) (by decide) (by decide) (by decide) (by decide) (by decide)).2.2.1,
    (c9_device_composition 800 480 16 ⟨true, true⟩
       ⟨false, 800, 480, 16, true, true, true, true⟩ ⟨true, true, true⟩
       (by decide) (by decide) (by decide) (by decide) (by decide) (by decide) (by decide)).2.2.2.1⟩⟩

end Ndg
